import Mathlib

/-!
Verification of the soul_cli repository (Rust sources `src/hal.rs` and
`src/main.rs`), shallowly embedded in Lean 4.

The embedding models:
  * the static module manifest built by `MockHal::new` (a `HashMap` from
    module name to an (expected-hash, provenance-url) pair) as an
    association list with first-match lookup;
  * every HAL method of `impl HalTrait for MockHal` as a state-passing
    function `MockHal → args → MockHal × List String × Except String α`,
    where the middle component collects the lines the method prints and
    the last component is the Rust `Result` (`Except.ok` for `Ok`,
    `Except.error` for `Err`);
  * the command enumeration of `main.rs` and `handle_command`, the latter
    generic over a record of HAL-method implementations mirroring the Rust
    `&impl HalTrait` parameter. Clock reads (`Local::now`) are supplied
    through an explicit environment.
-/

/-- The placeholder tensor structure of `hal.rs` (`TensorData`). -/
structure TensorData where
  info : String
deriving Repr, DecidableEq

/-- A manifest entry: module name, expected signature hash, provenance URL. -/
abbrev ManifestEntry := String × String × String

/-- The manifest type: association list from module name to (hash, url),
modelling the `HashMap<String, (String, String)>` of `MockHal`. -/
abbrev Manifest := List ManifestEntry

/-- First-match lookup, modelling `HashMap::get` (keys in the static
manifest are pairwise distinct, so first match is the map entry). -/
def manifestGet : Manifest → String → Option (String × String)
  | [], _ => none
  | (k, h, u) :: rest, name => if k == name then some (h, u) else manifestGet rest name

/-- `HashMap::contains_key`, via `manifestGet`. -/
def manifestContains (m : Manifest) (name : String) : Bool :=
  (manifestGet m name).isSome

/-- The mock HAL state: its only field is the static GitHub manifest
(`MockHal { github_manifest }` in `hal.rs`). -/
structure MockHal where
  github_manifest : Manifest
deriving Repr, DecidableEq

/-- The four entries inserted by `MockHal::new` in `hal.rs`. -/
def mockManifest : Manifest :=
  [ ("SoulOS_Core", "hash_core_123_abc", "gh://soulware/core/v1.0"),
    ("TensorMemoryDriver", "hash_tensor_xyz_789", "gh://soulware/tensor/v0.9"),
    ("EmotionalResonanceEngine", "hash_ere_qwerty_456", "gh://soulware/ere/v0.5"),
    ("UserInterfaceModule", "hash_ui_zxcv_321", "gh://soulware/ui/v1.1") ]

/-- `MockHal::new`. -/
def MockHal.new : MockHal := { github_manifest := mockManifest }

/-- The ledger source-selector string used throughout the sources. -/
def ledgerSource : String := "GitHubBlockchainLedger (Simulated)"

/-- The internal-manifest source-selector string. -/
def internalSource : String := "InternalManifest"

/-- `MockHal::verify_module_signature` from `hal.rs`, lines 50-94.
Returns the (unchanged) state, the printed diagnostic lines, and the
`Result<bool, String>` outcome: `ok true` = Verified, `ok false` = Failed,
`error` = Error. -/
def MockHal.verify_module_signature (hal : MockHal)
    (module_name signature_source : String) :
    MockHal × List String × Except String Bool :=
  if signature_source == "GitHubBlockchainLedger (Simulated)" then
    let l1 := "MockHAL: Accessing GitHub manifest for module \x27" ++ module_name
      ++ "\x27 via \x27" ++ signature_source ++ "\x27..."
    match manifestGet hal.github_manifest module_name with
    | some (expected_hash, github_url) =>
      let l2 := "MockHAL: Found entry. Expected signature (from " ++ github_url
        ++ "): " ++ expected_hash
      let local_calculated_hash :=
        if module_name == "UserInterfaceModule" then
          "hash_ui_zxcv_FAIL"
        else
          expected_hash
      let l3 := "MockHAL: Calculated local signature for \x27" ++ module_name
        ++ "\x27: " ++ local_calculated_hash
      if local_calculated_hash == expected_hash then
        (hal, [l1, l2, l3,
          "MockHAL: Signature VERIFIED for \x27" ++ module_name ++ "\x27."],
          Except.ok true)
      else
        (hal, [l1, l2, l3,
          "MockHAL: SIGNATURE MISMATCH for \x27" ++ module_name
            ++ "\x27! Expected \x27" ++ expected_hash ++ "\x27, got \x27"
            ++ local_calculated_hash ++ "\x27."],
          Except.ok false)
    | none =>
      (hal, [l1,
        "MockHAL: Module \x27" ++ module_name ++ "\x27 not found in GitHub manifest."],
        Except.error ("Module \x27" ++ module_name
          ++ "\x27 not listed in the simulated GitHub Blockchain Ledger."))
  else if signature_source == "InternalManifest" then
    let l1 := "MockHAL: Performing internal integrity check for core module \x27"
      ++ module_name ++ "\x27 against \x27" ++ signature_source ++ "\x27..."
    if manifestContains hal.github_manifest module_name
        || module_name == "RustHAL_Interface" then
      (hal, [l1,
        "MockHAL: Core module \x27" ++ module_name ++ "\x27 integrity VERIFIED internally."],
        Except.ok true)
    else
      (hal, [l1,
        "MockHAL: Core module \x27" ++ module_name ++ "\x27 not recognized for internal check."],
        Except.error ("Core module \x27" ++ module_name
          ++ "\x27 not recognized for internal check."))
  else
    (hal, [], Except.error ("Unknown signature source: " ++ signature_source))

/-- `MockHal::get_system_status`. -/
def MockHal.get_system_status (hal : MockHal) :
    MockHal × List String × Except String String :=
  (hal, [], Except.ok "MockStatus: System Optimal, Resonance Field Stable.")

/-- `MockHal::get_emotional_map`. -/
def MockHal.get_emotional_map (hal : MockHal) :
    MockHal × List String × Except String (List String) :=
  (hal, [], Except.ok ["Joy: Bright Cloud", "Sadness: Blue Mist"])

/-- `MockHal::collapse_truth_waveform`. -/
def MockHal.collapse_truth_waveform (hal : MockHal)
    (emotion mode time_vector : String) :
    MockHal × List String × Except String String :=
  (hal,
    ["MockHAL: Collapsing truth waveform for emotion \x27" ++ emotion
      ++ "\x27, mode \x27" ++ mode ++ "\x27, time_vector \x27" ++ time_vector ++ "\x27"],
    Except.ok "MockHAL: Waveform collapsed to \x27MockMemoryNode\x27")

/-- `MockHal::initialize_npu`. -/
def MockHal.initialize_npu (hal : MockHal) :
    MockHal × List String × Except String String :=
  (hal, [], Except.ok "MockHAL: NPU initialized and ready for ONNX models.")

/-- `MockHal::run_onnx_model`. -/
def MockHal.run_onnx_model (hal : MockHal) (model_path : String)
    (inputs : TensorData) :
    MockHal × List String × Except String TensorData :=
  (hal,
    ["MockHAL: Running ONNX model " ++ model_path ++ " with input info: \x27"
      ++ inputs.info ++ "\x27"],
    Except.ok { info := "MockHAL: ONNX model " ++ model_path
      ++ " processed with input " ++ inputs.info })

/-- The record of HAL-method implementations, mirroring the Rust trait
`HalTrait` as `handle_command` receives it (`&impl HalTrait`), made
state-passing over a state type `S`. -/
structure HalImpl (S : Type) where
  get_system_status : S → S × List String × Except String String
  verify_module_signature : S → String → String → S × List String × Except String Bool
  get_emotional_map : S → S × List String × Except String (List String)
  collapse_truth_waveform : S → String → String → String → S × List String × Except String String
  initialize_npu : S → S × List String × Except String String
  run_onnx_model : S → String → TensorData → S × List String × Except String TensorData

/-- The mock implementation: the `impl HalTrait for MockHal` block packaged
as a `HalImpl MockHal`. -/
def mockHalImpl : HalImpl MockHal where
  get_system_status := MockHal.get_system_status
  verify_module_signature := MockHal.verify_module_signature
  get_emotional_map := MockHal.get_emotional_map
  collapse_truth_waveform := MockHal.collapse_truth_waveform
  initialize_npu := MockHal.initialize_npu
  run_onnx_model := MockHal.run_onnx_model

/-- The closed command enumeration of `main.rs` (`enum Commands`). -/
inductive Commands where
  | Ver
  | Date
  | Time
  | Cls
  | Clear
  | Ls
  | Dir
  | Status
  | Mem
  | CheckModuleIntegrity (module_name : Option String)
  | SystemIntegrityCheck
  | Ping
  | InitNpu
  | MapEmotion
  | CollapseTruth (emotion mode time : String)
  | RunOnnxTest (model_path input_info : String)
deriving Repr, DecidableEq

/-- The clock environment: what `Local::now().format(..)` yields for the
`date` and `time` commands. -/
structure Env where
  now_date : String
  now_time : String
deriving Repr, DecidableEq

/-- `print_module_integrity_status` from `main.rs` (the boot-sequence
helper): the verify call's printed lines followed by the summary line. -/
def print_module_integrity_status {S : Type} (impl : HalImpl S) (s : S)
    (module_name manifest : String) : S × List String :=
  let (s2, out, res) := impl.verify_module_signature s module_name manifest
  match res with
  | Except.ok true => (s2, out ++
      ["  Core module \x27" ++ module_name ++ "\x27 integrity: VERIFIED internally."])
  | Except.ok false => (s2, out ++
      ["  Core module \x27" ++ module_name ++ "\x27 integrity: VERIFICATION FAILED internally."])
  | Except.error e => (s2, out ++
      ["  Error checking core module \x27" ++ module_name ++ "\x27 integrity: " ++ e])

/-- `print_module_integrity_status_for_command` from `main.rs`: prints the
"Checking ..." prefix, runs the verify call, then one of VERIFIED / FAILED
/ ERROR (e). -/
def print_module_integrity_status_for_command {S : Type} (impl : HalImpl S) (s : S)
    (module_name manifest : String) : S × List String :=
  let pre := "  Checking \x27" ++ module_name ++ "\x27 (source: " ++ manifest ++ ")... "
  let (s2, out, res) := impl.verify_module_signature s module_name manifest
  match res with
  | Except.ok true => (s2, pre :: out ++ ["VERIFIED"])
  | Except.ok false => (s2, pre :: out ++ ["FAILED"])
  | Except.error e => (s2, pre :: out ++ ["ERROR (" ++ e ++ ")"])

/-- `handle_command` from `main.rs`: dispatches one parsed command to the
HAL implementation, returning the final HAL state and every line printed
(in print order). -/
def handle_command {S : Type} (impl : HalImpl S) (env : Env)
    (command_enum : Commands) (s : S) : S × List String :=
  match command_enum with
  | Commands.Ver =>
      (s, ["SoulWare CLI Version 0.0.1-alpha (Handled by \x27ver\x27 command)"])
  | Commands.Date => (s, [env.now_date])
  | Commands.Time => (s, [env.now_time])
  | Commands.Cls | Commands.Clear => (s, ["\x1B[2J\x1B[H"])
  | Commands.Ls | Commands.Dir =>
      (s, ["Placeholder: Listing directory contents or module status..."])
  | Commands.Status | Commands.Mem =>
      let (s2, out, res) := impl.get_system_status s
      match res with
      | Except.ok status =>
          (s2, "\nFetching system status..." :: out ++ ["System Status: " ++ status])
      | Except.error e =>
          (s2, "\nFetching system status..." :: out ++ ["Error fetching system status: " ++ e])
  | Commands.CheckModuleIntegrity module_name =>
      match module_name with
      | some name =>
          let head := "\nChecking integrity of module: \x27" ++ name ++ "\x27..."
          let (s2, out, res) :=
            impl.verify_module_signature s name "GitHubBlockchainLedger (Simulated)"
          match res with
          | Except.ok true =>
              (s2, head :: out ++ ["Module \x27" ++ name ++ "\x27 integrity: VERIFIED"])
          | Except.ok false =>
              (s2, head :: out ++ ["Module \x27" ++ name ++ "\x27 integrity: VERIFICATION FAILED"])
          | Except.error e =>
              (s2, head :: out ++ ["Error checking module \x27" ++ name ++ "\x27 integrity: " ++ e])
      | none => (s, ["Usage: check-module-integrity <module_name>"])
  | Commands.SystemIntegrityCheck =>
      let (s1, o1) := print_module_integrity_status_for_command impl s "SoulOS_Core" "InternalManifest"
      let (s2, o2) := print_module_integrity_status_for_command impl s1 "TensorMemoryDriver" "InternalManifest"
      let (s3, o3) := print_module_integrity_status_for_command impl s2 "RustHAL_Interface" "InternalManifest"
      let (s4, o4) := print_module_integrity_status_for_command impl s3 "EmotionalResonanceEngine" "GitHubBlockchainLedger (Simulated)"
      let (s5, o5) := print_module_integrity_status_for_command impl s4 "UserInterfaceModule" "GitHubBlockchainLedger (Simulated)"
      let (s6, o6) := print_module_integrity_status_for_command impl s5 "NonExistentModule" "GitHubBlockchainLedger (Simulated)"
      (s6, "\nPerforming System Integrity Check..." :: "\nInternal Manifest Checks:" ::
        o1 ++ o2 ++ o3
        ++ ["\nGitHub Blockchain Ledger (Simulated) Checks:"]
        ++ o4 ++ o5 ++ o6)
  | Commands.Ping => (s, ["pong!"])
  | Commands.InitNpu =>
      let (s2, out, res) := impl.initialize_npu s
      match res with
      | Except.ok status =>
          (s2, "\nInitializing NPU..." :: out ++ ["NPU Status: " ++ status])
      | Except.error e =>
          (s2, "\nInitializing NPU..." :: out ++ ["Error initializing NPU: " ++ e])
  | Commands.MapEmotion =>
      let head := "\nFetching emotional map from Tensor Field..."
      let (s2, out, res) := impl.get_emotional_map s
      match res with
      | Except.ok map_data =>
          (s2, head :: out ++ ["Current Emotional Map in Tensor Field:"]
            ++ (if map_data.isEmpty then ["  Emotional map is currently clear."]
                else map_data.map (fun entry => "  - " ++ entry)))
      | Except.error e => (s2, head :: out ++ ["Error fetching emotional map: " ++ e])
  | Commands.CollapseTruth emotion mode time =>
      let head := "\nAttempting to collapse truth waveform for emotion \x27" ++ emotion
        ++ "\x27, mode \x27" ++ mode ++ "\x27, time \x27" ++ time ++ "\x27..."
      let (s2, out, res) := impl.collapse_truth_waveform s emotion mode time
      match res with
      | Except.ok result_node =>
          (s2, head :: out ++ ["Tensor Waveform Collapse Result: \x27" ++ result_node ++ "\x27"])
      | Except.error e => (s2, head :: out ++ ["Error during truth collapse: " ++ e])
  | Commands.RunOnnxTest model_path input_info =>
      let head := "\nAttempting to run ONNX model test for model: \x27" ++ model_path
        ++ "\x27 with input: \x27" ++ input_info ++ "\x27..."
      let (s2, out, res) := impl.run_onnx_model s model_path { info := input_info }
      match res with
      | Except.ok output_data =>
          (s2, head :: out ++ ["ONNX Model Test Result: \x27" ++ output_data.info ++ "\x27"])
      | Except.error e => (s2, head :: out ++ ["Error running ONNX model test: " ++ e])

/-- Dispatching a sequence of commands through `handle_command`, threading
the HAL state; each command may see its own clock environment. -/
def runCommands {S : Type} (impl : HalImpl S) : List (Env × Commands) → S → S
  | [], s => s
  | (env, c) :: rest, s => runCommands impl rest (handle_command impl env c s).1

/-! ## Helper lemmas -/

/-- `verify_module_signature` takes `&self`: every branch returns the state
it was given. -/
theorem verify_module_signature_fst (hal : MockHal)
    (module_name signature_source : String) :
    (hal.verify_module_signature module_name signature_source).1 = hal := by
  unfold MockHal.verify_module_signature
  repeat' split <;> try rfl
  all_goals (dsimp only; split <;> rfl)

/-- The command-shell integrity-print helper leaves the mock HAL state
unchanged. -/
theorem print_for_command_fst (s : MockHal) (mn m : String) :
    (print_module_integrity_status_for_command mockHalImpl s mn m).1 = s := by
  have h1 : (mockHalImpl.verify_module_signature s mn m).1 = s :=
    verify_module_signature_fst s mn m
  unfold print_module_integrity_status_for_command
  rcases hres : mockHalImpl.verify_module_signature s mn m with ⟨s2, out, res⟩
  rw [hres] at h1
  simp only at h1
  cases res with
  | ok b => cases b <;> simpa using h1
  | error e => simpa using h1

/-- No command variant changes the mock HAL state through `handle_command`. -/
theorem handle_command_fst (env : Env) (c : Commands) (s : MockHal) :
    (handle_command mockHalImpl env c s).1 = s := by
  cases c with
  | CheckModuleIntegrity mn =>
    cases mn with
    | none => rfl
    | some name =>
      simp only [handle_command, mockHalImpl]
      rcases hres : (MockHal.verify_module_signature s name
          "GitHubBlockchainLedger (Simulated)").2.2 with e | b
      · simpa using verify_module_signature_fst s name _
      · cases b <;> simpa using verify_module_signature_fst s name _
  | SystemIntegrityCheck =>
    simp only [handle_command]
    simp only [print_for_command_fst]
  | _ => rfl

/-- A `Result` value is an `Ok` or an `Err`. -/
theorem except_shape {α : Type} (r : Except String α) :
    (∃ v, r = Except.ok v) ∨ ∃ e, r = Except.error e := by
  cases r with
  | ok v => exact Or.inl ⟨v, rfl⟩
  | error e => exact Or.inr ⟨e, rfl⟩

/-! ## Claims -/

/-- C1: for every module name present in the static manifest except the one
designated to fail (`UserInterfaceModule`), `verify_module_signature` with
that name and the ledger source selector returns the Verified outcome
(`Ok(true)`). -/
theorem ledger_manifest_members_verified (name : String)
    (hmem : (manifestGet MockHal.new.github_manifest name).isSome = true)
    (hne : name ≠ "UserInterfaceModule") :
    (MockHal.new.verify_module_signature name ledgerSource).2.2 = Except.ok true := by
  obtain ⟨⟨h, u⟩, hget⟩ := Option.isSome_iff_exists.mp hmem
  have hb : (name == "UserInterfaceModule") = false := beq_eq_false_iff_ne.mpr hne
  simp [MockHal.verify_module_signature, ledgerSource, hget, hb]

/-- Witness for C1 at the manifest module `SoulOS_Core`. -/
theorem ledger_manifest_members_verified_witness :
    (manifestGet MockHal.new.github_manifest "SoulOS_Core").isSome = true
    ∧ ("SoulOS_Core" : String) ≠ "UserInterfaceModule"
    ∧ (MockHal.new.verify_module_signature "SoulOS_Core" ledgerSource).2.2
        = Except.ok true :=
  ⟨by decide, by decide,
    ledger_manifest_members_verified "SoulOS_Core" (by decide) (by decide)⟩

/-- C2: for the designated module `UserInterfaceModule`, the ledger check
returns the Failed outcome (`Ok(false)`), and dispatching
`check-module-integrity UserInterfaceModule` prints the
"VERIFICATION FAILED" line. -/
theorem userInterfaceModule_ledger_failed (env : Env) :
    (MockHal.new.verify_module_signature "UserInterfaceModule" ledgerSource).2.2
        = Except.ok false
    ∧ "Module \x27UserInterfaceModule\x27 integrity: VERIFICATION FAILED"
        ∈ (handle_command mockHalImpl env
            (Commands.CheckModuleIntegrity (some "UserInterfaceModule")) MockHal.new).2 := by
  constructor
  · rfl
  · have hrw : (handle_command mockHalImpl env
          (Commands.CheckModuleIntegrity (some "UserInterfaceModule")) MockHal.new).2
        = (handle_command mockHalImpl { now_date := "", now_time := "" }
          (Commands.CheckModuleIntegrity (some "UserInterfaceModule")) MockHal.new).2 := rfl
    rw [hrw]
    decide

/-- C3: the ledger check returns the "not listed" Error outcome exactly for
the module names absent from the static manifest: manifest membership
decides the Error outcome. -/
theorem ledger_absent_error_iff (name : String) :
    (MockHal.new.verify_module_signature name ledgerSource).2.2
        = Except.error ("Module \x27" ++ name
            ++ "\x27 not listed in the simulated GitHub Blockchain Ledger.")
      ↔ manifestGet MockHal.new.github_manifest name = none := by
  rcases hget : manifestGet MockHal.new.github_manifest name with _ | ⟨h, u⟩
  · simp [MockHal.verify_module_signature, ledgerSource, hget]
  · constructor
    · intro hres
      exfalso
      revert hres
      simp only [MockHal.verify_module_signature, ledgerSource, beq_self_eq_true,
        if_true, hget]
      split <;> simp
      split <;> simp
    · intro hnone
      simp at hnone

/-- C4: the internal-manifest check returns Verified (`Ok(true)`) iff the
name is a manifest key or equals the allow-listed `RustHAL_Interface`, and
in every other case returns the "not recognized" Error outcome. -/
theorem internal_verified_iff (name : String) :
    ((MockHal.new.verify_module_signature name internalSource).2.2 = Except.ok true
      ↔ (manifestContains MockHal.new.github_manifest name = true
          ∨ name = "RustHAL_Interface"))
    ∧ (¬(manifestContains MockHal.new.github_manifest name = true
          ∨ name = "RustHAL_Interface") →
        (MockHal.new.verify_module_signature name internalSource).2.2
          = Except.error ("Core module \x27" ++ name
              ++ "\x27 not recognized for internal check.")) := by
  by_cases hc : manifestContains MockHal.new.github_manifest name = true
  · have hc' : (manifestGet MockHal.new.github_manifest name).isSome = true := hc
    simp [MockHal.verify_module_signature, internalSource, manifestContains, hc']
  · have hc' : (manifestGet MockHal.new.github_manifest name).isSome = false := by
      simpa [manifestContains] using hc
    by_cases hr : name = "RustHAL_Interface"
    · simp [MockHal.verify_module_signature, internalSource, manifestContains, hc', hr]
    · simp [MockHal.verify_module_signature, internalSource, manifestContains, hc', hr,
        beq_eq_false_iff_ne.mpr hr]

/-- C5: any source selector other than the ledger and internal-manifest
selectors yields the "Unknown signature source" Error outcome, with no
diagnostic output, for every module name. -/
theorem unknown_source_error (module_name signature_source : String)
    (h1 : signature_source ≠ ledgerSource) (h2 : signature_source ≠ internalSource) :
    MockHal.new.verify_module_signature module_name signature_source
      = (MockHal.new, [],
          Except.error ("Unknown signature source: " ++ signature_source)) := by
  rw [ledgerSource] at h1
  rw [internalSource] at h2
  simp [MockHal.verify_module_signature, beq_eq_false_iff_ne.mpr h1,
    beq_eq_false_iff_ne.mpr h2]

/-- Witness for C5 at the selector "LocalFile". -/
theorem unknown_source_error_witness :
    ("LocalFile" : String) ≠ ledgerSource
    ∧ ("LocalFile" : String) ≠ internalSource
    ∧ MockHal.new.verify_module_signature "AnyModule" "LocalFile"
        = (MockHal.new, [],
            Except.error ("Unknown signature source: " ++ "LocalFile")) :=
  ⟨by decide, by decide, unknown_source_error "AnyModule" "LocalFile" (by decide) (by decide)⟩

/-- C6: `verify_module_signature` is a deterministic pure function of the
module name, the source selector and the HAL state: two calls with equal
arguments on the same `MockHal` value return the same outcome, and the call
leaves that value (so the manifest) unchanged. -/
theorem verify_module_signature_deterministic_pure (hal : MockHal)
    (n1 src1 n2 src2 : String) (hn : n1 = n2) (hs : src1 = src2) :
    hal.verify_module_signature n1 src1 = hal.verify_module_signature n2 src2
    ∧ (hal.verify_module_signature n1 src1).1 = hal := by
  subst hn
  subst hs
  exact ⟨rfl, verify_module_signature_fst hal n1 src1⟩

/-- Witness for C6 at the module `SoulOS_Core` on the internal selector. -/
theorem verify_module_signature_deterministic_pure_witness :
    ("SoulOS_Core" : String) = "SoulOS_Core"
    ∧ internalSource = internalSource
    ∧ (MockHal.new.verify_module_signature "SoulOS_Core" internalSource
          = MockHal.new.verify_module_signature "SoulOS_Core" internalSource
        ∧ (MockHal.new.verify_module_signature "SoulOS_Core" internalSource).1
          = MockHal.new) :=
  ⟨rfl, rfl, verify_module_signature_deterministic_pure MockHal.new
    "SoulOS_Core" internalSource "SoulOS_Core" internalSource rfl rfl⟩

/-- C7: every HAL method is total and returns a `Result` value — on every
input its outcome is an `Ok` or an `Err` (the embedding of each method is a
total function; no input reaches a panic). -/
theorem hal_methods_total (hal : MockHal)
    (module_name signature_source emotion mode time_vector model_path : String)
    (inputs : TensorData) :
    ((∃ v, (hal.get_system_status).2.2 = Except.ok v)
      ∨ ∃ e, (hal.get_system_status).2.2 = Except.error e)
    ∧ ((∃ v, (hal.verify_module_signature module_name signature_source).2.2 = Except.ok v)
      ∨ ∃ e, (hal.verify_module_signature module_name signature_source).2.2 = Except.error e)
    ∧ ((∃ v, (hal.get_emotional_map).2.2 = Except.ok v)
      ∨ ∃ e, (hal.get_emotional_map).2.2 = Except.error e)
    ∧ ((∃ v, (hal.collapse_truth_waveform emotion mode time_vector).2.2 = Except.ok v)
      ∨ ∃ e, (hal.collapse_truth_waveform emotion mode time_vector).2.2 = Except.error e)
    ∧ ((∃ v, (hal.initialize_npu).2.2 = Except.ok v)
      ∨ ∃ e, (hal.initialize_npu).2.2 = Except.error e)
    ∧ ((∃ v, (hal.run_onnx_model model_path inputs).2.2 = Except.ok v)
      ∨ ∃ e, (hal.run_onnx_model model_path inputs).2.2 = Except.error e) :=
  ⟨except_shape _, except_shape _, except_shape _, except_shape _,
    except_shape _, except_shape _⟩

/-- C8: the static manifest is read-only: `handle_command` with any command
variant leaves the manifest untouched, and after any sequence of dispatched
commands the manifest still equals the four-entry value `MockHal::new`
built. -/
theorem manifest_read_only (cmds : List (Env × Commands)) (env : Env)
    (c : Commands) (s : MockHal) :
    (handle_command mockHalImpl env c s).1.github_manifest = s.github_manifest
    ∧ (runCommands mockHalImpl cmds MockHal.new).github_manifest = mockManifest := by
  constructor
  · rw [handle_command_fst]
  · have h : ∀ t : MockHal, runCommands mockHalImpl cmds t = t := by
      induction cmds with
      | nil => intro t; rfl
      | cons p rest ih =>
        intro t
        rcases p with ⟨env', c'⟩
        show runCommands mockHalImpl rest (handle_command mockHalImpl env' c' t).1 = _
        rw [handle_command_fst]
        exact ih t
    rw [h MockHal.new]
    rfl

/-- C9: the internal-manifest path never returns the Failed outcome
(`Ok(false)`): for every module name its result is Verified or Error. -/
theorem internal_never_failed (name : String) :
    (MockHal.new.verify_module_signature name internalSource).2.2
      ≠ Except.ok false := by
  simp only [MockHal.verify_module_signature, internalSource]
  split
  · simp_all
  · split
    · split <;> simp
    · simp

/-- C10: dispatching `check-module-integrity` without a module name prints
only the usage line and consults no HAL method: for every implementation of
the HAL trait and every state, the result is the unchanged state and the
usage message. -/
theorem check_module_integrity_no_arg_usage {S : Type} (impl : HalImpl S)
    (env : Env) (s : S) :
    handle_command impl env (Commands.CheckModuleIntegrity none) s
      = (s, ["Usage: check-module-integrity <module_name>"]) := rfl
